import Mathlib

/-!
Shallow embedding of the VS Code Debugger MCP Server Proxy core
(the connection lifecycle and forwarding loop of src/index.ts).

The proxy is a single-threaded, event-driven program.  We model its
module-scope mutable state (`currentWs`, `reconnectAttempts`,
`stdinListenersActive`, the registered process signal handlers, the
pending reconnect timers) together with the observable effect traces
(ws.send calls, bytes written to stdout, close() calls issued, log
entries, process exit status) as one state record, and each source
function / event handler as a state transformer.  Event delivery by the
runtime event loop is a `step` function on events; a whole run is a fold
over a list of events.  WebSocket objects are numbered by creation order;
the handlers that `connect()` wires against a particular socket instance
are modelled by the event carrying the id of the socket it fires on.
-/

namespace Proxy

/-- ws library readyState constant: the socket is connecting. -/
def WS_CONNECTING : Nat := 0

/-- ws library readyState constant: the socket is open. -/
def WS_OPEN : Nat := 1

/-- ws library readyState constant: the socket is closing. -/
def WS_CLOSING : Nat := 2

/-- ws library readyState constant: the socket is closed. -/
def WS_CLOSED : Nat := 3

/-- Source constant `MAX_RECONNECT_ATTEMPTS = 10`. -/
def MAX_RECONNECT_ATTEMPTS : Nat := 10

/-- Source constant `RECONNECT_INTERVAL_MS = 5000` (5 seconds). -/
def RECONNECT_INTERVAL_MS : Nat := 5000

/-- One `logMessage` call site of the source, with the dynamic part of the
message where one exists.  Timestamping, the log file and stderr echoing
are external collaborators; we record which call site fired. -/
inductive LogEvent where
  | connectCalled
  | wsOpened
  | stdinForward (preview : String)
  | stdinNotOpen
  | stdinEnded
  | stdinErrored
  | wsToStdout (preview : String)
  | wsClosed (code : Nat)
  | wsErrored
  | reconnectScheduled (attempt : Nat)
  | reconnectExhausted
  | shutdownSignal
  | closingDueToSignal
  | exitingDirectly
  deriving DecidableEq

/-- The module-scope state of the proxy script plus its observable
effect traces. -/
structure ProxyState where
  /-- Source global `currentWs` (WebSocket or null); holds the id of the
  current socket (ids are assigned in creation order). -/
  currentWs : Option Nat
  /-- Number of WebSocket objects created so far; ids `0 .. nextWs - 1`
  exist and have handlers wired on them. -/
  nextWs : Nat
  /-- Entry `i` of this list is the readyState of socket `i`. -/
  readyStates : List Nat
  /-- Source global `reconnectAttempts`, starting at 0. -/
  reconnectAttempts : Nat
  /-- Source global `stdinListenersActive`, starting at false. -/
  stdinListenersActive : Bool
  /-- The sockets captured by the `process.stdin.on(data, ...)` handlers
  currently registered, in registration order (each `.on` call adds a
  handler; `removeAllListeners` clears them all). -/
  dataHandlers : List Nat
  /-- Delays of reconnect timers scheduled by `setTimeout(connect, ...)`
  that have not fired yet. -/
  pendingTimers : List Nat
  /-- Delays of every reconnect timer ever scheduled (cumulative). -/
  scheduledDelays : List Nat
  /-- Number of `SIGINT`/`SIGTERM`/`exit` handler sets registered on the
  process (one set per `connect()` call; none are ever removed). -/
  sigHandlerSets : Nat
  /-- Number of invocations of the `gracefulShutdown` routine. -/
  shutdownCalls : Nat
  /-- The `(socket id, close code)` of every `ws.close(...)` call issued. -/
  closeCalls : List (Nat × Nat)
  /-- Payloads of every `ws.send(...)` call issued. -/
  sent : List String
  /-- Bytes written to `process.stdout`. -/
  stdoutData : String
  /-- Log entries, in order. -/
  logs : List LogEvent
  /-- Recorded exit status: `process.exit(c)` sets this to `some c`; afterwards nothing runs. -/
  exited : Option Nat
  deriving DecidableEq

/-- Whitespace in the sense of JavaScript string trimming (the ASCII
white space and line terminator characters). -/
def isJsWhitespace (c : Char) : Bool :=
  c == ' ' || c == '\t' || c == '\n' || c == '\r' ||
  c == '\x0b' || c == '\x0c'

/-- JavaScript `String.prototype.trim()`: removes whitespace from both
ends of the string. -/
def jsTrim (s : String) : String :=
  ⟨((s.data.dropWhile isJsWhitespace).reverse.dropWhile isJsWhitespace).reverse⟩

/-- Bounded log preview: `message.substring(0, 200) + (message.length > 200 ? "..." : "")`,
the bounded preview used by the log statements. -/
def logPreview (m : String) : String :=
  m.take 200 ++ (if m.length > 200 then "..." else "")

/-- Source function `logMessage`: records a log entry (file/stderr formatting is an
external collaborator). -/
def logMessage (e : LogEvent) (s : ProxyState) : ProxyState :=
  { s with logs := s.logs ++ [e] }

/-- readyState of socket `ws` (a nonexistent socket reads as closed). -/
def readyStateOf (s : ProxyState) (ws : Nat) : Nat :=
  s.readyStates.getD ws WS_CLOSED

/-- Source function `setupStdinListeners(ws)`: if `stdinListenersActive`,
return; otherwise register the data/end/error handlers on stdin, with
the data handler capturing `ws`, and set the flag. -/
def setupStdinListeners (ws : Nat) (s : ProxyState) : ProxyState :=
  if s.stdinListenersActive then s
  else { s with dataHandlers := s.dataHandlers ++ [ws],
                stdinListenersActive := true }

/-- Source function `removeStdinListeners()`: if not active, return; otherwise
remove all stdin listeners and clear the flag. -/
def removeStdinListeners (s : ProxyState) : ProxyState :=
  if !s.stdinListenersActive then s
  else { s with dataHandlers := [], stdinListenersActive := false }

/-- Source function `scheduleReconnect()`: remove stdin listeners; if
`reconnectAttempts < MAX_RECONNECT_ATTEMPTS`, increment the counter, log
and schedule `connect` after `RECONNECT_INTERVAL_MS`; otherwise log and
`process.exit(1)`. -/
def scheduleReconnect (s : ProxyState) : ProxyState :=
  let s := removeStdinListeners s
  if s.reconnectAttempts < MAX_RECONNECT_ATTEMPTS then
    let s := { s with reconnectAttempts := s.reconnectAttempts + 1 }
    let s := logMessage (.reconnectScheduled s.reconnectAttempts) s
    { s with pendingTimers := s.pendingTimers ++ [RECONNECT_INTERVAL_MS],
             scheduledDelays := s.scheduledDelays ++ [RECONNECT_INTERVAL_MS] }
  else
    let s := logMessage .reconnectExhausted s
    { s with exited := some 1 }

/-- Source function `connect()`: log, create a new WebSocket (readyState
CONNECTING), store it in `currentWs`, wire its event handlers (modelled
by the socket id existing), and register a fresh set of
SIGINT/SIGTERM/exit process handlers. -/
def connect (s : ProxyState) : ProxyState :=
  let s := logMessage .connectCalled s
  { s with currentWs := some s.nextWs,
           nextWs := s.nextWs + 1,
           readyStates := s.readyStates ++ [WS_CONNECTING],
           sigHandlerSets := s.sigHandlerSets + 1 }

/-- Handler for open: the `currentWs.on(open, ...)` handler of socket `sid` (the ws
library moves the socket to OPEN when the event fires): log, reset
`reconnectAttempts` to 0, and `setupStdinListeners(currentWs!)`. -/
def onWsOpen (sid : Nat) (s : ProxyState) : ProxyState :=
  if sid < s.nextWs then
    let s := { s with readyStates := s.readyStates.set sid WS_OPEN }
    let s := logMessage .wsOpened s
    let s := { s with reconnectAttempts := 0 }
    match s.currentWs with
    | some cur => setupStdinListeners cur s
    | none => s
  else s

/-- The `currentWs.on(message, ...)` handler of socket `sid`: log a
bounded preview and write `messageString` plus a newline to stdout. -/
def onWsMessage (sid : Nat) (payload : String) (s : ProxyState) : ProxyState :=
  if sid < s.nextWs then
    let s := logMessage (.wsToStdout (logPreview payload)) s
    { s with stdoutData := s.stdoutData ++ payload ++ "\n" }
  else s

/-- The `currentWs.on(close, ...)` handler of socket `sid` (the ws
library moves the socket to CLOSED when the event fires): log and
`scheduleReconnect()`. -/
def onWsClose (sid : Nat) (code : Nat) (s : ProxyState) : ProxyState :=
  if sid < s.nextWs then
    let s := { s with readyStates := s.readyStates.set sid WS_CLOSED }
    let s := logMessage (.wsClosed code) s
    scheduleReconnect s
  else s

/-- The `currentWs.on(error, ...)` handler of socket `sid`: log and
`scheduleReconnect()`. -/
def onWsError (sid : Nat) (s : ProxyState) : ProxyState :=
  if sid < s.nextWs then
    scheduleReconnect (logMessage .wsErrored s)
  else s

/-- One invocation of `gracefulShutdown(signal)`: log; if `currentWs`
exists and its readyState is OPEN or CONNECTING, log and
`currentWs.close(1000, ...)` (which moves the socket to CLOSING);
otherwise log and `process.exit(0)`. -/
def gracefulShutdown (s : ProxyState) : ProxyState :=
  let s := { s with shutdownCalls := s.shutdownCalls + 1 }
  let s := logMessage .shutdownSignal s
  match s.currentWs with
  | some ws =>
    if readyStateOf s ws == WS_OPEN || readyStateOf s ws == WS_CONNECTING then
      let s := logMessage .closingDueToSignal s
      { s with closeCalls := s.closeCalls ++ [(ws, 1000)],
               readyStates := s.readyStates.set ws WS_CLOSING }
    else
      let s := logMessage .exitingDirectly s
      { s with exited := some 0 }
  | none =>
    let s := logMessage .exitingDirectly s
    { s with exited := some 0 }

/-- Delivery of a termination signal: the registered handler sets run in
registration order, each invoking `gracefulShutdown`; `process.exit`
inside an invocation stops the remaining ones. -/
def runSignalHandlers : Nat → ProxyState → ProxyState
  | 0, s => s
  | n + 1, s =>
    if s.exited.isSome then s
    else runSignalHandlers n (gracefulShutdown s)

/-- The body of one registered `process.stdin.on(data, ...)` handler
capturing socket `ws`: `const message = data.toString().trim();` and if
the message is non-empty, log it and either `ws.send(message)` when
`ws.readyState === WebSocket.OPEN` or log that it cannot be sent. -/
def stdinDataHandler (ws : Nat) (chunk : String) (s : ProxyState) : ProxyState :=
  let message := jsTrim chunk
  if message ≠ "" then
    let s := logMessage (.stdinForward (logPreview message)) s
    if readyStateOf s ws == WS_OPEN then
      { s with sent := s.sent ++ [message] }
    else
      logMessage .stdinNotOpen s
  else s

/-- Delivery of a stdin data chunk: every registered data handler runs,
in registration order. -/
def stdinData (chunk : String) (s : ProxyState) : ProxyState :=
  s.dataHandlers.foldl (fun st ws => stdinDataHandler ws chunk st) s

/-- Events the runtime event loop can deliver to the proxy. -/
inductive Event where
  /-- `open` fires on socket `sid`. -/
  | wsOpen (sid : Nat)
  /-- `message` fires on socket `sid` with the given payload. -/
  | wsMessage (sid : Nat) (payload : String)
  /-- `close` fires on socket `sid` with the given close code. -/
  | wsClose (sid : Nat) (code : Nat)
  /-- `error` fires on socket `sid`. -/
  | wsError (sid : Nat)
  /-- A data chunk arrives on stdin. -/
  | stdin (chunk : String)
  /-- A pending reconnect timer fires, invoking `connect`. -/
  | timer
  /-- A termination signal (SIGINT or SIGTERM) is delivered. -/
  | signal
  deriving DecidableEq

/-- One event delivered by the event loop.  After `process.exit` nothing
runs.  Events on sockets that were never created are no-ops. -/
def step (e : Event) (s : ProxyState) : ProxyState :=
  if s.exited.isSome then s
  else
    match e with
    | .wsOpen sid => onWsOpen sid s
    | .wsMessage sid p => onWsMessage sid p s
    | .wsClose sid c => onWsClose sid c s
    | .wsError sid => onWsError sid s
    | .stdin c => stdinData c s
    | .timer =>
      match s.pendingTimers with
      | [] => s
      | _ :: rest => connect { s with pendingTimers := rest }
    | .signal => runSignalHandlers s.sigHandlerSets s

/-- A whole run: fold `step` over a list of events. -/
def run (es : List Event) (s : ProxyState) : ProxyState :=
  es.foldl (fun st e => step e st) s

/-- The state before the entry point of the script runs. -/
def initialState : ProxyState :=
  { currentWs := none, nextWs := 0, readyStates := [],
    reconnectAttempts := 0, stdinListenersActive := false,
    dataHandlers := [], pendingTimers := [], scheduledDelays := [],
    sigHandlerSets := 0, shutdownCalls := 0, closeCalls := [],
    sent := [], stdoutData := "", logs := [], exited := none }

/-- The state after the entry point `connect()` call. -/
def startState : ProxyState := connect initialState

/-- One transport failure of the current connection and the recovery the
proxy performs for it: the close event of the current socket fires (code
1006, abnormal closure), and the reconnect timer it scheduled — when one
was scheduled — fires, creating a fresh socket. -/
def failStep (s : ProxyState) : ProxyState :=
  step .timer (step (.wsClose (s.currentWs.getD 0) 1006) s)

/-- Iterated failures; `failFrom n s` is `n` consecutive transport failures starting from `s`. -/
def failFrom : Nat → ProxyState → ProxyState
  | 0, s => s
  | n + 1, s => failStep (failFrom n s)

/-- Failure scenario `failN n`: the proxy started and then hit `n` consecutive transport
failures with no intervening successful connection. -/
def failN (n : Nat) : ProxyState := failFrom n startState

/-- After `a` failures the current connection attempt succeeds: its
`open` event fires. -/
def openAfter (a : Nat) : ProxyState :=
  step (.wsOpen ((failN a).currentWs.getD 0)) (failN a)


/-! ### Basic lemmas about the state transformers -/

theorem step_of_exited (e : Event) (s : ProxyState) (h : s.exited.isSome) :
    step e s = s := by
  unfold step
  simp [h]

theorem failStep_of_exited (s : ProxyState) (h : s.exited.isSome) :
    failStep s = s := by
  unfold failStep
  rw [step_of_exited _ _ h, step_of_exited _ _ h]

theorem failN_succ (n : Nat) : failN (n + 1) = failStep (failN n) := rfl

theorem step_wsError (sid : Nat) (s : ProxyState) (hex : s.exited = none) :
    step (.wsError sid) s = onWsError sid s := by
  unfold step
  simp [hex]

theorem step_wsClose (sid code : Nat) (s : ProxyState) (hex : s.exited = none) :
    step (.wsClose sid code) s = onWsClose sid code s := by
  unfold step
  simp [hex]

theorem step_wsMessage (sid : Nat) (p : String) (s : ProxyState)
    (hex : s.exited = none) :
    step (.wsMessage sid p) s = onWsMessage sid p s := by
  unfold step
  simp [hex]

theorem step_stdin (c : String) (s : ProxyState) (hex : s.exited = none) :
    step (.stdin c) s = stdinData c s := by
  unfold step
  simp [hex]

theorem step_signal (s : ProxyState) (hex : s.exited = none) :
    step .signal s = runSignalHandlers s.sigHandlerSets s := by
  unfold step
  simp [hex]

theorem onWsError_eq (sid : Nat) (s : ProxyState) (hs : sid < s.nextWs) :
    onWsError sid s = scheduleReconnect (logMessage .wsErrored s) := by
  unfold onWsError
  rw [if_pos hs]

theorem onWsClose_eq (sid code : Nat) (s : ProxyState) (hs : sid < s.nextWs) :
    onWsClose sid code s =
      scheduleReconnect (logMessage (.wsClosed code)
        { s with readyStates := s.readyStates.set sid WS_CLOSED }) := by
  unfold onWsClose
  rw [if_pos hs]

theorem scheduleReconnect_of_lt (s : ProxyState)
    (h : s.reconnectAttempts < MAX_RECONNECT_ATTEMPTS) :
    scheduleReconnect s =
      { removeStdinListeners s with
        reconnectAttempts := s.reconnectAttempts + 1,
        logs := s.logs ++ [.reconnectScheduled (s.reconnectAttempts + 1)],
        pendingTimers := s.pendingTimers ++ [RECONNECT_INTERVAL_MS],
        scheduledDelays := s.scheduledDelays ++ [RECONNECT_INTERVAL_MS] } := by
  unfold scheduleReconnect removeStdinListeners logMessage
  split <;> simp_all

theorem scheduleReconnect_of_ge (s : ProxyState)
    (h : MAX_RECONNECT_ATTEMPTS ≤ s.reconnectAttempts) :
    scheduleReconnect s =
      { removeStdinListeners s with
        logs := s.logs ++ [.reconnectExhausted],
        exited := some 1 } := by
  unfold scheduleReconnect removeStdinListeners logMessage
  have hnot : ¬ s.reconnectAttempts < MAX_RECONNECT_ATTEMPTS := by omega
  split <;> simp_all

theorem removeStdinListeners_reconnectAttempts (s : ProxyState) :
    (removeStdinListeners s).reconnectAttempts = s.reconnectAttempts := by
  unfold removeStdinListeners
  split <;> rfl

theorem removeStdinListeners_exited (s : ProxyState) :
    (removeStdinListeners s).exited = s.exited := by
  unfold removeStdinListeners
  split <;> rfl

theorem removeStdinListeners_nextWs (s : ProxyState) :
    (removeStdinListeners s).nextWs = s.nextWs := by
  unfold removeStdinListeners
  split <;> rfl

theorem removeStdinListeners_pendingTimers (s : ProxyState) :
    (removeStdinListeners s).pendingTimers = s.pendingTimers := by
  unfold removeStdinListeners
  split <;> rfl

theorem setupStdinListeners_reconnectAttempts (w : Nat) (s : ProxyState) :
    (setupStdinListeners w s).reconnectAttempts = s.reconnectAttempts := by
  unfold setupStdinListeners
  split <;> rfl

/-! ### The reconnect counter never exceeds the bound -/

theorem scheduleReconnect_attempts_le (s : ProxyState)
    (h : s.reconnectAttempts ≤ MAX_RECONNECT_ATTEMPTS) :
    (scheduleReconnect s).reconnectAttempts ≤ MAX_RECONNECT_ATTEMPTS := by
  by_cases hlt : s.reconnectAttempts < MAX_RECONNECT_ATTEMPTS
  · rw [scheduleReconnect_of_lt s hlt]
    simpa using hlt
  · rw [scheduleReconnect_of_ge s (by omega)]
    simpa [removeStdinListeners_reconnectAttempts] using h

theorem logMessage_reconnectAttempts (e : LogEvent) (s : ProxyState) :
    (logMessage e s).reconnectAttempts = s.reconnectAttempts := rfl

theorem connect_reconnectAttempts (s : ProxyState) :
    (connect s).reconnectAttempts = s.reconnectAttempts := rfl

theorem step_wsOpen (sid : Nat) (s : ProxyState) (hex : s.exited = none) :
    step (.wsOpen sid) s = onWsOpen sid s := by
  unfold step
  simp [hex]

theorem step_timer (s : ProxyState) (hex : s.exited = none) :
    step .timer s =
      match s.pendingTimers with
      | [] => s
      | _ :: rest => connect { s with pendingTimers := rest } := by
  unfold step
  simp [hex]

theorem gracefulShutdown_reconnectAttempts (s : ProxyState) :
    (gracefulShutdown s).reconnectAttempts = s.reconnectAttempts := by
  unfold gracefulShutdown
  cases hcw : s.currentWs
  · simp only [logMessage, hcw]
  · simp only [logMessage, hcw]
    split <;> rfl

theorem runSignalHandlers_reconnectAttempts (n : Nat) (s : ProxyState) :
    (runSignalHandlers n s).reconnectAttempts = s.reconnectAttempts := by
  induction n generalizing s with
  | zero => rfl
  | succ n ih =>
    unfold runSignalHandlers
    split
    · rfl
    · rw [ih, gracefulShutdown_reconnectAttempts]

theorem stdinDataHandler_reconnectAttempts (w : Nat) (c : String) (s : ProxyState) :
    (stdinDataHandler w c s).reconnectAttempts = s.reconnectAttempts := by
  unfold stdinDataHandler logMessage
  dsimp only
  split <;> [skip; rfl]
  split <;> rfl

theorem stdinData_reconnectAttempts (c : String) (s : ProxyState) :
    (stdinData c s).reconnectAttempts = s.reconnectAttempts := by
  unfold stdinData
  generalize s.dataHandlers = l
  induction l generalizing s with
  | nil => rfl
  | cons w l ih =>
    rw [List.foldl_cons, ih, stdinDataHandler_reconnectAttempts]

theorem onWsOpen_attempts_le (sid : Nat) (s : ProxyState)
    (h : s.reconnectAttempts ≤ MAX_RECONNECT_ATTEMPTS) :
    (onWsOpen sid s).reconnectAttempts ≤ MAX_RECONNECT_ATTEMPTS := by
  unfold onWsOpen
  split
  · simp only [logMessage]
    cases hcw : s.currentWs with
    | none => simp
    | some cur => rw [setupStdinListeners_reconnectAttempts]; simp
  · exact h

theorem step_attempts_le (e : Event) (s : ProxyState)
    (h : s.reconnectAttempts ≤ MAX_RECONNECT_ATTEMPTS) :
    (step e s).reconnectAttempts ≤ MAX_RECONNECT_ATTEMPTS := by
  by_cases hex : s.exited.isSome
  · rw [step_of_exited e s hex]
    exact h
  · have hex2 : s.exited = none := by
      cases hh : s.exited
      · rfl
      · rw [hh] at hex
        simp at hex
    cases e with
    | wsOpen sid =>
      rw [step_wsOpen sid s hex2]
      exact onWsOpen_attempts_le sid s h
    | wsMessage sid p =>
      rw [step_wsMessage sid p s hex2]
      unfold onWsMessage
      split
      · simpa [logMessage] using h
      · exact h
    | wsClose sid c =>
      rw [step_wsClose sid c s hex2]
      unfold onWsClose
      split
      · exact scheduleReconnect_attempts_le _ (by simpa [logMessage] using h)
      · exact h
    | wsError sid =>
      rw [step_wsError sid s hex2]
      unfold onWsError
      split
      · exact scheduleReconnect_attempts_le _ (by simpa [logMessage] using h)
      · exact h
    | stdin c =>
      rw [step_stdin c s hex2, stdinData_reconnectAttempts]
      exact h
    | timer =>
      rw [step_timer s hex2]
      cases htm : s.pendingTimers with
      | nil => exact h
      | cons d rest => simpa [connect, logMessage] using h
    | signal =>
      rw [step_signal s hex2, runSignalHandlers_reconnectAttempts]
      exact h

theorem run_attempts_le (es : List Event) (s : ProxyState)
    (h : s.reconnectAttempts ≤ MAX_RECONNECT_ATTEMPTS) :
    (run es s).reconnectAttempts ≤ MAX_RECONNECT_ATTEMPTS := by
  induction es generalizing s with
  | nil => exact h
  | cons e es ih =>
    unfold run at ih ⊢
    rw [List.foldl_cons]
    exact ih _ (step_attempts_le e s h)

theorem removeStdinListeners_scheduledDelays (s : ProxyState) :
    (removeStdinListeners s).scheduledDelays = s.scheduledDelays := by
  unfold removeStdinListeners
  split <;> rfl

theorem failN_add_max (k : Nat) :
    failN (MAX_RECONNECT_ATTEMPTS + 1 + k) = failN (MAX_RECONNECT_ATTEMPTS + 1) := by
  induction k with
  | zero => rfl
  | succ k ih =>
    show failStep (failN (MAX_RECONNECT_ATTEMPTS + 1 + k)) = _
    rw [ih]
    exact failStep_of_exited _ (by decide)

/-! ### The claims -/

/-- Claim C1 (code bug): evaluating the code on the failing input.  From a
fresh start the connection opens, a termination signal arrives while the
state is Open, and the resulting close event is processed.  Exactly one
close call with code 1000 is issued, as the claim says, but the process
does not exit with status 0: the close handler schedules a reconnect
(counter 1, one pending 5000 ms timer) because it never recognizes a
shutdown in progress. -/
theorem C1_graceful_shutdown_code_bug :
    (run [.wsOpen 0, .signal, .wsClose 0 1000] startState).closeCalls = [(0, 1000)] ∧
    (run [.wsOpen 0, .signal, .wsClose 0 1000] startState).exited = none ∧
    (run [.wsOpen 0, .signal, .wsClose 0 1000] startState).pendingTimers = [RECONNECT_INTERVAL_MS] ∧
    (run [.wsOpen 0, .signal, .wsClose 0 1000] startState).reconnectAttempts = 1 := by
  decide

/-- Claim C2, counterexample: after a sequence of exactly
MAX_RECONNECT_ATTEMPTS (10) consecutive transport failures — a value the
claim quantifies over, since 10 ≥ MAX_RECONNECT_ATTEMPTS — the process
has NOT exited with status 1: it has scheduled the tenth reconnect
attempt and keeps running, waiting for its outcome. -/
theorem C2_counterexample :
    (failN MAX_RECONNECT_ATTEMPTS).exited = none ∧
    (failN MAX_RECONNECT_ATTEMPTS).exited ≠ some 1 ∧
    (failN MAX_RECONNECT_ATTEMPTS).scheduledDelays =
      List.replicate MAX_RECONNECT_ATTEMPTS RECONNECT_INTERVAL_MS := by
  decide

/-- Claim C2 (amended): for every sequence of N consecutive transport
failures with N > MAX_RECONNECT_ATTEMPTS (that is, N ≥ 11), the process
exits with status 1 after exactly MAX_RECONNECT_ATTEMPTS scheduled
reconnect attempts, never more; the reconnect counter never exceeds the
bound in any run; and when it would, the process terminates instead of
scheduling another attempt. -/
theorem C2_amended_exhaustion :
    (∀ N, MAX_RECONNECT_ATTEMPTS + 1 ≤ N →
      (failN N).exited = some 1 ∧
      (failN N).scheduledDelays =
        List.replicate MAX_RECONNECT_ATTEMPTS RECONNECT_INTERVAL_MS) ∧
    (∀ es : List Event,
      (run es startState).reconnectAttempts ≤ MAX_RECONNECT_ATTEMPTS) ∧
    (∀ s : ProxyState, MAX_RECONNECT_ATTEMPTS ≤ s.reconnectAttempts →
      (scheduleReconnect s).exited = some 1 ∧
      (scheduleReconnect s).scheduledDelays = s.scheduledDelays) := by
  refine ⟨?_, ?_, ?_⟩
  · intro N h
    obtain ⟨k, rfl⟩ := Nat.exists_eq_add_of_le h
    rw [failN_add_max k]
    decide
  · intro es
    exact run_attempts_le es startState (by decide)
  · intro s h
    rw [scheduleReconnect_of_ge s h]
    exact ⟨rfl, removeStdinListeners_scheduledDelays s⟩

/-- Witness for C2_amended_exhaustion at concrete inputs: eleven
failures, a singleton event list, and a state with a saturated counter. -/
theorem C2_witness :
    (failN 11).exited = some 1 ∧
    (run [Event.timer] startState).reconnectAttempts ≤ MAX_RECONNECT_ATTEMPTS ∧
    (scheduleReconnect (failN 10)).exited = some 1 :=
  ⟨(C2_amended_exhaustion.1 11 (by decide)).1,
   C2_amended_exhaustion.2.1 [Event.timer],
   (C2_amended_exhaustion.2.2 (failN 10) (by decide)).1⟩

/-- Claim C3: for every sequence of N consecutive transport failures with
N < MAX_RECONNECT_ATTEMPTS (10) and no intervening successful connection,
the system schedules exactly N reconnect attempts, each after the fixed
5000 ms delay, and does not exit the process. -/
theorem C3_bounded_failures (N : Nat) (h : N < MAX_RECONNECT_ATTEMPTS) :
    (failN N).exited = none ∧
    (failN N).scheduledDelays = List.replicate N RECONNECT_INTERVAL_MS := by
  revert h
  revert N
  decide

/-- Witness for C3_bounded_failures at N = 3. -/
theorem C3_witness :
    (failN 3).exited = none ∧
    (failN 3).scheduledDelays = List.replicate 3 RECONNECT_INTERVAL_MS :=
  C3_bounded_failures 3 (by decide)

/-- Claim C4: a successful connection (the open event) resets the
reconnect counter to 0, so after `a` failures, a success, and then more
failures the proxy behaves as from a fresh start: for every b ≤ 10 it is
still running with counter b, and only MAX_RECONNECT_ATTEMPTS + 1 further
failures kill it — the full retry budget, not a count reduced by the `a`
earlier failures. -/
theorem C4_open_resets_counter (a : Nat) (ha : a ≤ MAX_RECONNECT_ATTEMPTS) :
    (openAfter a).reconnectAttempts = 0 ∧
    (∀ b, b ≤ MAX_RECONNECT_ATTEMPTS →
      (failFrom b (openAfter a)).exited = none ∧
      (failFrom b (openAfter a)).reconnectAttempts = b) ∧
    (failFrom (MAX_RECONNECT_ATTEMPTS + 1) (openAfter a)).exited = some 1 := by
  revert ha
  revert a
  decide

/-- Witness for C4_open_resets_counter: 4 failures, then a successful
open, then ten more failures. -/
theorem C4_witness :
    (openAfter 4).reconnectAttempts = 0 ∧
    (failFrom 10 (openAfter 4)).exited = none :=
  ⟨(C4_open_resets_counter 4 (by decide)).1,
   ((C4_open_resets_counter 4 (by decide)).2.1 10 (by decide)).1⟩

/-- Claim C5 (code bug): evaluating the code on the failing input.
Socket 0 errors, the scheduled timer fires and creates socket 1 — so
socket 0 is now stale, superseded by a newer reconnect attempt — and then
the stale socket 0 emits its close event.  The stale close is NOT
ignored: it increments the reconnect counter from 1 to 2 and schedules a
second connect timer, because the close handler wired on a superseded
socket still calls scheduleReconnect unconditionally. -/
theorem C5_stale_event_code_bug :
    (run [.wsError 0, .timer] startState).currentWs = some 1 ∧
    (run [.wsError 0, .timer] startState).reconnectAttempts = 1 ∧
    (run [.wsError 0, .timer] startState).scheduledDelays = [RECONNECT_INTERVAL_MS] ∧
    (run [.wsError 0, .timer, .wsClose 0 1006] startState).reconnectAttempts = 2 ∧
    (run [.wsError 0, .timer, .wsClose 0 1006] startState).scheduledDelays =
      [RECONNECT_INTERVAL_MS, RECONNECT_INTERVAL_MS] := by
  decide

/-! ### Stdin forwarding (claims C6, C7, C8) -/

/-- Trimming of trailing whitespace/newline only — the transformation the
claim wording describes, for comparison with the both-ends
`String.prototype.trim()` the source actually applies. -/
def trimTrailingWs (s : String) : String :=
  ⟨(s.data.reverse.dropWhile isJsWhitespace).reverse⟩

theorem stdinDataHandler_empty (w : Nat) (c : String) (s : ProxyState)
    (h : jsTrim c = "") : stdinDataHandler w c s = s := by
  unfold stdinDataHandler
  simp [h]

theorem stdinDataHandler_open (w : Nat) (c : String) (s : ProxyState)
    (h1 : jsTrim c ≠ "") (h2 : readyStateOf s w = WS_OPEN) :
    stdinDataHandler w c s =
      { s with sent := s.sent ++ [jsTrim c],
               logs := s.logs ++ [.stdinForward (logPreview (jsTrim c))] } := by
  have hc : (readyStateOf
      (logMessage (.stdinForward (logPreview (jsTrim c))) s) w == WS_OPEN) = true := by
    show (readyStateOf s w == WS_OPEN) = true
    simp [h2]
  unfold stdinDataHandler
  rw [if_pos h1, if_pos hc]
  rfl

theorem stdinDataHandler_notOpen (w : Nat) (c : String) (s : ProxyState)
    (h1 : jsTrim c ≠ "") (h2 : readyStateOf s w ≠ WS_OPEN) :
    stdinDataHandler w c s =
      { s with logs := s.logs ++
          [.stdinForward (logPreview (jsTrim c)), .stdinNotOpen] } := by
  have hc : ¬ (readyStateOf
      (logMessage (.stdinForward (logPreview (jsTrim c))) s) w == WS_OPEN) = true := by
    show ¬ (readyStateOf s w == WS_OPEN) = true
    simp [h2]
  unfold stdinDataHandler
  rw [if_pos h1, if_neg hc]
  unfold logMessage
  simp

/-- Claim C6, counterexample: for the input chunk " x" delivered while the
connection is Open, the code sends "x" — the chunk trimmed at BOTH ends by
JavaScript trim() — whereas the content trimmed only of trailing
whitespace, which the claim says is transmitted, is " x". -/
theorem C6_counterexample :
    (step (.stdin (" x")) (run [.wsOpen 0] startState)).sent = ["x"] ∧
    trimTrailingWs (" x") = " x" ∧
    (step (.stdin (" x")) (run [.wsOpen 0] startState)).sent
      ≠ [trimTrailingWs (" x")] := by
  decide

/-- Claim C6 (amended): for every input chunk delivered by the stdin data
handler, the chunk is trimmed of LEADING AND trailing whitespace; if the
trimmed content is non-empty and the captured socket is Open it is sent
as a single outbound message with exactly that trimmed content; if the
trimmed content is empty nothing at all happens; and if the socket is not
Open the line is logged as undeliverable and dropped — the state changes
in no way besides the log, so the line is never queued or sent later. -/
theorem C6_amended_stdin_forwarding (s : ProxyState) (ws : Nat) (chunk : String)
    (hex : s.exited = none) (hh : s.dataHandlers = [ws]) :
    (jsTrim chunk = "" → step (.stdin chunk) s = s) ∧
    (jsTrim chunk ≠ "" → readyStateOf s ws = WS_OPEN →
      step (.stdin chunk) s =
        { s with sent := s.sent ++ [jsTrim chunk],
                 logs := s.logs ++ [.stdinForward (logPreview (jsTrim chunk))] }) ∧
    (jsTrim chunk ≠ "" → readyStateOf s ws ≠ WS_OPEN →
      step (.stdin chunk) s =
        { s with logs := s.logs ++
            [.stdinForward (logPreview (jsTrim chunk)), .stdinNotOpen] }) := by
  have hfold : stdinData chunk s = stdinDataHandler ws chunk s := by
    unfold stdinData
    rw [hh]
    simp only [List.foldl_cons, List.foldl_nil]
  rw [step_stdin chunk s hex, hfold]
  exact ⟨fun h1 => stdinDataHandler_empty ws chunk s h1,
         fun h1 h2 => stdinDataHandler_open ws chunk s h1 h2,
         fun h1 h2 => stdinDataHandler_notOpen ws chunk s h1 h2⟩

/-- Witness for C6_amended_stdin_forwarding: the chunk "  hello " sent
while the connection is open. -/
theorem C6_witness :
    step (.stdin ("  hello ")) (run [.wsOpen 0] startState) =
      { run [.wsOpen 0] startState with
        sent := (run [.wsOpen 0] startState).sent ++ [jsTrim ("  hello ")],
        logs := (run [.wsOpen 0] startState).logs ++
          [.stdinForward (logPreview (jsTrim ("  hello ")))] } :=
  (C6_amended_stdin_forwarding (run [.wsOpen 0] startState) 0 ("  hello ")
    (by decide) (by decide)).2.1 (by decide) (by decide)

/-- Claim C7: for every inbound remote message payload, the bytes written
to stdout are exactly the payload followed by a single newline, with no
other transformation or framing. -/
theorem C7_message_passthrough (s : ProxyState) (sid : Nat) (payload : String)
    (hex : s.exited = none) (hs : sid < s.nextWs) :
    (step (.wsMessage sid payload) s).stdoutData
      = s.stdoutData ++ payload ++ "\n" := by
  rw [step_wsMessage sid payload s hex]
  unfold onWsMessage
  rw [if_pos hs]
  rfl

/-- Witness for C7_message_passthrough: the remote message with payload
bytes x7b"a":1x7d (a small JSON object) yields exactly those bytes plus a
newline on stdout. -/
theorem C7_witness :
    (step (.wsMessage 0 ("\x7b\"a\":1\x7d")) startState).stdoutData
      = "" ++ "\x7b\"a\":1\x7d" ++ "\n" :=
  C7_message_passthrough startState 0 ("\x7b\"a\":1\x7d") rfl (by decide)

theorem setupStdinListeners_exited (w : Nat) (s : ProxyState) :
    (setupStdinListeners w s).exited = s.exited := by
  unfold setupStdinListeners
  split <;> rfl

theorem setupStdinListeners_readyStates (w : Nat) (s : ProxyState) :
    (setupStdinListeners w s).readyStates = s.readyStates := by
  unfold setupStdinListeners
  split <;> rfl

theorem setupStdinListeners_sent (w : Nat) (s : ProxyState) :
    (setupStdinListeners w s).sent = s.sent := by
  unfold setupStdinListeners
  split <;> rfl

/-- Claim C8: attaching the stdin listeners is idempotent and detaching
them is idempotent: attaching twice in a row equals attaching once,
detaching twice equals detaching once, and after a double attach exactly
one data handler is registered, so an input chunk is forwarded exactly
once. -/
theorem C8_attach_detach_idempotent :
    (∀ (s : ProxyState) (w1 w2 : Nat),
      setupStdinListeners w2 (setupStdinListeners w1 s) = setupStdinListeners w1 s) ∧
    (∀ s : ProxyState,
      removeStdinListeners (removeStdinListeners s) = removeStdinListeners s) ∧
    (∀ (s : ProxyState) (w : Nat) (chunk : String),
      s.stdinListenersActive = false → s.dataHandlers = [] → s.exited = none →
      readyStateOf s w = WS_OPEN → jsTrim chunk ≠ "" →
      (setupStdinListeners w (setupStdinListeners w s)).dataHandlers = [w] ∧
      (step (.stdin chunk) (setupStdinListeners w (setupStdinListeners w s))).sent
        = s.sent ++ [jsTrim chunk]) := by
  refine ⟨?_, ?_, ?_⟩
  · intro s w1 w2
    by_cases h : s.stdinListenersActive <;> simp [setupStdinListeners, h]
  · intro s
    by_cases h : s.stdinListenersActive <;> simp [removeStdinListeners, h]
  · intro s w chunk hact hd hex hrs hne
    have hdh : (setupStdinListeners w (setupStdinListeners w s)).dataHandlers
        = [w] := by
      simp [setupStdinListeners, hact, hd]
    have hex2 : (setupStdinListeners w (setupStdinListeners w s)).exited
        = none := by
      rw [setupStdinListeners_exited, setupStdinListeners_exited]
      exact hex
    have hrs2 : readyStateOf (setupStdinListeners w (setupStdinListeners w s)) w
        = WS_OPEN := by
      unfold readyStateOf
      rw [setupStdinListeners_readyStates, setupStdinListeners_readyStates]
      exact hrs
    refine ⟨hdh, ?_⟩
    rw [step_stdin chunk _ hex2]
    have hfold2 : stdinData chunk (setupStdinListeners w (setupStdinListeners w s))
        = stdinDataHandler w chunk
            (setupStdinListeners w (setupStdinListeners w s)) := by
      unfold stdinData
      rw [hdh]
      simp only [List.foldl_cons, List.foldl_nil]
    rw [hfold2, stdinDataHandler_open w chunk _ hne hrs2]
    show (setupStdinListeners w (setupStdinListeners w s)).sent ++ [jsTrim chunk]
      = s.sent ++ [jsTrim chunk]
    rw [setupStdinListeners_sent, setupStdinListeners_sent]

/-- Witness for C8_attach_detach_idempotent: a double attach after a
detach from an open connection, then the chunk " ping ". -/
theorem C8_witness :
    (step (.stdin (" ping ")) (setupStdinListeners 0 (setupStdinListeners 0
        (removeStdinListeners (run [.wsOpen 0] startState))))).sent
      = (removeStdinListeners (run [.wsOpen 0] startState)).sent
          ++ [jsTrim (" ping ")] :=
  (C8_attach_detach_idempotent.2.2
    (removeStdinListeners (run [.wsOpen 0] startState)) 0 (" ping ")
    (by decide) (by decide) (by decide) (by decide) (by decide)).2

/-! ### Double reconnect on error plus close (claim C9) -/

theorem scheduleReconnect_lt_reconnectAttempts (s : ProxyState)
    (h : s.reconnectAttempts < MAX_RECONNECT_ATTEMPTS) :
    (scheduleReconnect s).reconnectAttempts = s.reconnectAttempts + 1 := by
  rw [scheduleReconnect_of_lt s h]

theorem scheduleReconnect_lt_pendingTimers (s : ProxyState)
    (h : s.reconnectAttempts < MAX_RECONNECT_ATTEMPTS) :
    (scheduleReconnect s).pendingTimers
      = s.pendingTimers ++ [RECONNECT_INTERVAL_MS] := by
  rw [scheduleReconnect_of_lt s h]

theorem scheduleReconnect_lt_exited (s : ProxyState)
    (h : s.reconnectAttempts < MAX_RECONNECT_ATTEMPTS) :
    (scheduleReconnect s).exited = s.exited := by
  rw [scheduleReconnect_of_lt s h]
  exact removeStdinListeners_exited s

theorem scheduleReconnect_nextWs (s : ProxyState) :
    (scheduleReconnect s).nextWs = s.nextWs := by
  by_cases h : s.reconnectAttempts < MAX_RECONNECT_ATTEMPTS
  · rw [scheduleReconnect_of_lt s h]
    exact removeStdinListeners_nextWs s
  · rw [scheduleReconnect_of_ge s (by omega)]
    exact removeStdinListeners_nextWs s

theorem scheduleReconnect_ge_exited (s : ProxyState)
    (h : MAX_RECONNECT_ATTEMPTS ≤ s.reconnectAttempts) :
    (scheduleReconnect s).exited = some 1 := by
  rw [scheduleReconnect_of_ge s h]

theorem scheduleReconnect_ge_reconnectAttempts (s : ProxyState)
    (h : MAX_RECONNECT_ATTEMPTS ≤ s.reconnectAttempts) :
    (scheduleReconnect s).reconnectAttempts = s.reconnectAttempts := by
  rw [scheduleReconnect_of_ge s h]
  exact removeStdinListeners_reconnectAttempts s

theorem scheduleReconnect_ge_pendingTimers (s : ProxyState)
    (h : MAX_RECONNECT_ATTEMPTS ≤ s.reconnectAttempts) :
    (scheduleReconnect s).pendingTimers = s.pendingTimers := by
  rw [scheduleReconnect_of_ge s h]
  exact removeStdinListeners_pendingTimers s

/-- Claim C9, counterexample: the claim is false at the reachable state
after nine consecutive failures, where the reconnect counter is 9.  The
tenth failure of the current socket (socket 9) emitting error and then
close increments the counter by 1, to 10 — not by 2 — schedules one
connect timer — not two — and exits the process with status 1: the error
handler schedules the tenth and final attempt, and the close handler
finds the counter saturated and terminates. -/
theorem C9_counterexample :
    (failN 9).reconnectAttempts = 9 ∧
    (failN 9).exited = none ∧
    (failN 9).currentWs = some 9 ∧
    (failN 9).pendingTimers = [] ∧
    (step (.wsClose 9 1006) (step (.wsError 9) (failN 9))).reconnectAttempts = 10 ∧
    (step (.wsClose 9 1006) (step (.wsError 9) (failN 9))).reconnectAttempts
      ≠ (failN 9).reconnectAttempts + 2 ∧
    (step (.wsClose 9 1006) (step (.wsError 9) (failN 9))).pendingTimers
      = [RECONNECT_INTERVAL_MS] ∧
    (step (.wsClose 9 1006) (step (.wsError 9) (failN 9))).pendingTimers
      ≠ (failN 9).pendingTimers
          ++ [RECONNECT_INTERVAL_MS, RECONNECT_INTERVAL_MS] ∧
    (step (.wsClose 9 1006) (step (.wsError 9) (failN 9))).exited = some 1 := by
  decide

/-- Claim C9 (amended): for every transport failure whose WebSocket emits
both an error event and a subsequent close event, each handler calls
scheduleReconnect without checking whether a reconnect is already
scheduled for that session, so with the reconnect counter at most
MAX_RECONNECT_ATTEMPTS - 2 beforehand the counter is incremented by 2 and
two independent connect timers are scheduled for that single failure;
with the counter at MAX_RECONNECT_ATTEMPTS - 1 the error event schedules
the tenth and final timer and the close event invocation exits the
process with status 1; and with the counter already at
MAX_RECONNECT_ATTEMPTS the error event invocation exits with status 1 and
the close event is never processed. -/
theorem C9_amended_error_close_reconnect (s : ProxyState) (sid code : Nat)
    (hex : s.exited = none) (hs : sid < s.nextWs) :
    (s.reconnectAttempts + 2 ≤ MAX_RECONNECT_ATTEMPTS →
      (step (.wsClose sid code) (step (.wsError sid) s)).reconnectAttempts
          = s.reconnectAttempts + 2 ∧
      (step (.wsClose sid code) (step (.wsError sid) s)).pendingTimers
          = s.pendingTimers ++ [RECONNECT_INTERVAL_MS, RECONNECT_INTERVAL_MS] ∧
      (step (.wsClose sid code) (step (.wsError sid) s)).exited = none) ∧
    (s.reconnectAttempts = MAX_RECONNECT_ATTEMPTS - 1 →
      (step (.wsClose sid code) (step (.wsError sid) s)).reconnectAttempts
          = MAX_RECONNECT_ATTEMPTS ∧
      (step (.wsClose sid code) (step (.wsError sid) s)).pendingTimers
          = s.pendingTimers ++ [RECONNECT_INTERVAL_MS] ∧
      (step (.wsClose sid code) (step (.wsError sid) s)).exited = some 1) ∧
    (s.reconnectAttempts = MAX_RECONNECT_ATTEMPTS →
      (step (.wsClose sid code) (step (.wsError sid) s)).reconnectAttempts
          = MAX_RECONNECT_ATTEMPTS ∧
      (step (.wsClose sid code) (step (.wsError sid) s)).pendingTimers
          = s.pendingTimers ∧
      (step (.wsClose sid code) (step (.wsError sid) s)).exited = some 1) := by
  refine ⟨fun h10 => ?_, fun h9 => ?_, fun heq => ?_⟩
  · have hM : s.reconnectAttempts + 2 ≤ 10 := h10
    have h1 : (logMessage .wsErrored s).reconnectAttempts < MAX_RECONNECT_ATTEMPTS := by
      show s.reconnectAttempts < 10
      omega
    rw [step_wsError sid s hex, onWsError_eq sid s hs]
    have he1 : (scheduleReconnect (logMessage .wsErrored s)).exited = none :=
      (scheduleReconnect_lt_exited _ h1).trans hex
    have hn1 : sid < (scheduleReconnect (logMessage .wsErrored s)).nextWs := by
      rw [scheduleReconnect_nextWs]
      exact hs
    rw [step_wsClose sid code _ he1, onWsClose_eq sid code _ hn1]
    have h2 : (logMessage (.wsClosed code)
        { scheduleReconnect (logMessage .wsErrored s) with
          readyStates := (scheduleReconnect
            (logMessage .wsErrored s)).readyStates.set sid WS_CLOSED
        }).reconnectAttempts < MAX_RECONNECT_ATTEMPTS := by
      show (scheduleReconnect (logMessage .wsErrored s)).reconnectAttempts
        < MAX_RECONNECT_ATTEMPTS
      rw [scheduleReconnect_lt_reconnectAttempts _ h1]
      show s.reconnectAttempts + 1 < 10
      omega
    refine ⟨?_, ?_, ?_⟩
    · rw [scheduleReconnect_lt_reconnectAttempts _ h2]
      show (scheduleReconnect (logMessage .wsErrored s)).reconnectAttempts + 1
        = s.reconnectAttempts + 2
      rw [scheduleReconnect_lt_reconnectAttempts _ h1]
      rfl
    · rw [scheduleReconnect_lt_pendingTimers _ h2]
      show (scheduleReconnect (logMessage .wsErrored s)).pendingTimers
          ++ [RECONNECT_INTERVAL_MS]
        = s.pendingTimers ++ [RECONNECT_INTERVAL_MS, RECONNECT_INTERVAL_MS]
      rw [scheduleReconnect_lt_pendingTimers _ h1]
      show s.pendingTimers ++ [RECONNECT_INTERVAL_MS] ++ [RECONNECT_INTERVAL_MS]
        = s.pendingTimers ++ [RECONNECT_INTERVAL_MS, RECONNECT_INTERVAL_MS]
      simp
    · rw [scheduleReconnect_lt_exited _ h2]
      exact he1
  · have h9n : s.reconnectAttempts = 9 := h9
    have h1 : (logMessage .wsErrored s).reconnectAttempts < MAX_RECONNECT_ATTEMPTS := by
      show s.reconnectAttempts < 10
      omega
    rw [step_wsError sid s hex, onWsError_eq sid s hs]
    have he1 : (scheduleReconnect (logMessage .wsErrored s)).exited = none :=
      (scheduleReconnect_lt_exited _ h1).trans hex
    have hn1 : sid < (scheduleReconnect (logMessage .wsErrored s)).nextWs := by
      rw [scheduleReconnect_nextWs]
      exact hs
    rw [step_wsClose sid code _ he1, onWsClose_eq sid code _ hn1]
    have ha1 : (scheduleReconnect (logMessage .wsErrored s)).reconnectAttempts
        = s.reconnectAttempts + 1 := scheduleReconnect_lt_reconnectAttempts _ h1
    have hge : MAX_RECONNECT_ATTEMPTS ≤ (logMessage (.wsClosed code)
        { scheduleReconnect (logMessage .wsErrored s) with
          readyStates := (scheduleReconnect
            (logMessage .wsErrored s)).readyStates.set sid WS_CLOSED
        }).reconnectAttempts := by
      show MAX_RECONNECT_ATTEMPTS
        ≤ (scheduleReconnect (logMessage .wsErrored s)).reconnectAttempts
      rw [ha1]
      show 10 ≤ s.reconnectAttempts + 1
      omega
    refine ⟨?_, ?_, ?_⟩
    · rw [scheduleReconnect_ge_reconnectAttempts _ hge]
      show (scheduleReconnect (logMessage .wsErrored s)).reconnectAttempts
        = MAX_RECONNECT_ATTEMPTS
      rw [ha1, h9n]
      rfl
    · rw [scheduleReconnect_ge_pendingTimers _ hge]
      show (scheduleReconnect (logMessage .wsErrored s)).pendingTimers
        = s.pendingTimers ++ [RECONNECT_INTERVAL_MS]
      rw [scheduleReconnect_lt_pendingTimers _ h1]
      rfl
    · exact scheduleReconnect_ge_exited _ hge
  · have heq10 : s.reconnectAttempts = 10 := heq
    rw [step_wsError sid s hex, onWsError_eq sid s hs]
    have hge1 : MAX_RECONNECT_ATTEMPTS
        ≤ (logMessage .wsErrored s).reconnectAttempts := by
      show 10 ≤ s.reconnectAttempts
      omega
    have he1 : (scheduleReconnect (logMessage .wsErrored s)).exited = some 1 :=
      scheduleReconnect_ge_exited _ hge1
    rw [step_of_exited _ _ (by simp [he1])]
    refine ⟨?_, ?_, ?_⟩
    · rw [scheduleReconnect_ge_reconnectAttempts _ hge1]
      exact heq
    · rw [scheduleReconnect_ge_pendingTimers _ hge1]
      rfl
    · exact he1

/-- Witness for C9_amended_error_close_reconnect: the very first
connection attempt errors and then closes (counter 0); the tenth socket
errors and closes at counter 9; the eleventh socket errors at counter
10. -/
theorem C9_witness :
    (step (.wsClose 0 1006) (step (.wsError 0) startState)).reconnectAttempts
        = startState.reconnectAttempts + 2 ∧
    (step (.wsClose 9 1006) (step (.wsError 9) (failN 9))).exited = some 1 ∧
    (step (.wsClose 10 1006) (step (.wsError 10) (failN 10))).exited = some 1 :=
  ⟨((C9_amended_error_close_reconnect startState 0 1006 rfl
      (by decide)).1 (by decide)).1,
   ((C9_amended_error_close_reconnect (failN 9) 9 1006 (by decide)
      (by decide)).2.1 (by decide)).2.2,
   ((C9_amended_error_close_reconnect (failN 10) 10 1006 (by decide)
      (by decide)).2.2 (by decide)).2.2⟩

/-! ### Signal handler accumulation (claim C10) -/

theorem getD_set_self (l : List Nat) (i v d : Nat) (h : i < l.length) :
    (l.set i v).getD i d = v := by
  induction l generalizing i with
  | nil => simp at h
  | cons a l ih =>
    cases i with
    | zero => rfl
    | succ i => exact ih i (by simpa using h)

theorem readyStateOf_lt_length (s : ProxyState) (cur : Nat)
    (hrs : readyStateOf s cur = WS_OPEN ∨ readyStateOf s cur = WS_CONNECTING) :
    cur < s.readyStates.length := by
  by_contra hlen
  have hd := List.getD_eq_default s.readyStates WS_CLOSED (Nat.le_of_not_lt hlen)
  unfold readyStateOf at hrs
  rcases hrs with h | h <;> rw [hd] at h <;>
    simp [WS_CLOSED, WS_OPEN, WS_CONNECTING] at h

theorem gracefulShutdown_of_live (s : ProxyState) (cur : Nat)
    (hcw : s.currentWs = some cur)
    (hrs : readyStateOf s cur = WS_OPEN ∨ readyStateOf s cur = WS_CONNECTING) :
    gracefulShutdown s =
      { s with shutdownCalls := s.shutdownCalls + 1,
               logs := s.logs ++ [.shutdownSignal, .closingDueToSignal],
               closeCalls := s.closeCalls ++ [(cur, 1000)],
               readyStates := s.readyStates.set cur WS_CLOSING } := by
  have hb : (readyStateOf s cur == WS_OPEN
      || readyStateOf s cur == WS_CONNECTING) = true := by
    rcases hrs with h | h <;> rw [h] <;> rfl
  unfold gracefulShutdown
  simp only [logMessage, hcw]
  rw [if_pos]
  · simp
  · show (readyStateOf s cur == WS_OPEN
      || readyStateOf s cur == WS_CONNECTING) = true
    exact hb

theorem gracefulShutdown_of_dead (s : ProxyState) (cur : Nat)
    (hcw : s.currentWs = some cur)
    (h1 : readyStateOf s cur ≠ WS_OPEN) (h2 : readyStateOf s cur ≠ WS_CONNECTING) :
    gracefulShutdown s =
      { s with shutdownCalls := s.shutdownCalls + 1,
               logs := s.logs ++ [.shutdownSignal, .exitingDirectly],
               exited := some 0 } := by
  have hb : (readyStateOf s cur == WS_OPEN
      || readyStateOf s cur == WS_CONNECTING) = false := by
    have e1 : (readyStateOf s cur == WS_OPEN) = false := by
      simp [h1]
    have e2 : (readyStateOf s cur == WS_CONNECTING) = false := by
      simp [h2]
    rw [e1, e2]
    rfl
  unfold gracefulShutdown
  simp only [logMessage, hcw]
  rw [if_neg]
  · simp
  · show ¬ (readyStateOf s cur == WS_OPEN
      || readyStateOf s cur == WS_CONNECTING) = true
    simp [hb]

theorem gracefulShutdown_live_projections (s : ProxyState) (cur : Nat)
    (hcw : s.currentWs = some cur)
    (hrs : readyStateOf s cur = WS_OPEN ∨ readyStateOf s cur = WS_CONNECTING) :
    (gracefulShutdown s).shutdownCalls = s.shutdownCalls + 1 ∧
    (gracefulShutdown s).exited = s.exited ∧
    (gracefulShutdown s).currentWs = s.currentWs ∧
    readyStateOf (gracefulShutdown s) cur = WS_CLOSING := by
  rw [gracefulShutdown_of_live s cur hcw hrs]
  refine ⟨rfl, rfl, rfl, ?_⟩
  show (s.readyStates.set cur WS_CLOSING).getD cur WS_CLOSED = WS_CLOSING
  exact getD_set_self _ _ _ _ (readyStateOf_lt_length s cur hrs)

theorem gracefulShutdown_dead_projections (s : ProxyState) (cur : Nat)
    (hcw : s.currentWs = some cur)
    (h1 : readyStateOf s cur ≠ WS_OPEN) (h2 : readyStateOf s cur ≠ WS_CONNECTING) :
    (gracefulShutdown s).shutdownCalls = s.shutdownCalls + 1 ∧
    (gracefulShutdown s).exited = some 0 := by
  rw [gracefulShutdown_of_dead s cur hcw h1 h2]
  exact ⟨rfl, rfl⟩

theorem runSignalHandlers_succ (n : Nat) (s : ProxyState) (hex : s.exited = none) :
    runSignalHandlers (n + 1) s = runSignalHandlers n (gracefulShutdown s) := by
  show (if s.exited.isSome then s else runSignalHandlers n (gracefulShutdown s))
    = runSignalHandlers n (gracefulShutdown s)
  rw [if_neg (by simp [hex])]

theorem runSignalHandlers_of_exited (n : Nat) (s : ProxyState)
    (h : s.exited.isSome) : runSignalHandlers n s = s := by
  cases n with
  | zero => rfl
  | succ n =>
    unfold runSignalHandlers
    rw [if_pos h]

theorem runSignalHandlers_calls_live (n : Nat) (s : ProxyState) (cur : Nat)
    (hex : s.exited = none) (hcw : s.currentWs = some cur)
    (hrs : readyStateOf s cur = WS_OPEN ∨ readyStateOf s cur = WS_CONNECTING) :
    (runSignalHandlers n s).shutdownCalls = s.shutdownCalls + min n 2 := by
  obtain ⟨hc1, he1, hw1, hr1⟩ := gracefulShutdown_live_projections s cur hcw hrs
  cases n with
  | zero => simp [runSignalHandlers]
  | succ m =>
    rw [runSignalHandlers_succ m s hex]
    cases m with
    | zero =>
      show (gracefulShutdown s).shutdownCalls = s.shutdownCalls + min 1 2
      rw [hc1]
      omega
    | succ k =>
      rw [runSignalHandlers_succ k _ (he1.trans hex)]
      have h1 : readyStateOf (gracefulShutdown s) cur ≠ WS_OPEN := by
        rw [hr1]
        decide
      have h2 : readyStateOf (gracefulShutdown s) cur ≠ WS_CONNECTING := by
        rw [hr1]
        decide
      obtain ⟨hc2, he2⟩ := gracefulShutdown_dead_projections
        (gracefulShutdown s) cur (hw1.trans hcw) h1 h2
      rw [runSignalHandlers_of_exited k _ (by simp [he2]), hc2, hc1]
      omega

theorem runSignalHandlers_calls_dead (n : Nat) (s : ProxyState) (cur : Nat)
    (hex : s.exited = none) (hcw : s.currentWs = some cur)
    (h1 : readyStateOf s cur ≠ WS_OPEN) (h2 : readyStateOf s cur ≠ WS_CONNECTING) :
    (runSignalHandlers n s).shutdownCalls = s.shutdownCalls + min n 1 := by
  cases n with
  | zero => simp [runSignalHandlers]
  | succ m =>
    rw [runSignalHandlers_succ m s hex]
    obtain ⟨hc2, he2⟩ := gracefulShutdown_dead_projections s cur hcw h1 h2
    rw [runSignalHandlers_of_exited m _ (by simp [he2]), hc2]
    omega

/-- Claim C10, counterexample: after two reconnect attempts three signal
handler sets are installed (as the claim says), but a single termination
signal delivered while the connection is Open invokes the
graceful-shutdown routine only 2 times, not 3: the second invocation
finds the socket already Closing and exits the process, so the third
registered handler set never runs. -/
theorem C10_counterexample :
    (run [.wsClose 0 1006, .timer, .wsClose 1 1006, .timer, .wsOpen 2]
        startState).sigHandlerSets = 3 ∧
    (run [.wsClose 0 1006, .timer, .wsClose 1 1006, .timer, .wsOpen 2]
        startState).shutdownCalls = 0 ∧
    (run [.wsClose 0 1006, .timer, .wsClose 1 1006, .timer, .wsOpen 2, .signal]
        startState).shutdownCalls = 2 ∧
    (run [.wsClose 0 1006, .timer, .wsClose 1 1006, .timer, .wsOpen 2, .signal]
        startState).shutdownCalls ≠ 3 := by
  decide

/-- Claim C10 (amended): every call to connect registers a fresh set of
SIGINT/SIGTERM/exit handlers without removing previously registered ones,
so after k reconnect attempts k + 1 handler sets are installed; but a
single termination signal does not invoke the graceful-shutdown routine
once per set: the invocations stop at the first process exit, so when the
active socket is open or connecting the routine runs min(sets, 2) times
(the first invocation closes the socket, the second exits), and otherwise
it runs min(sets, 1) times (the first invocation exits directly). -/
theorem C10_amended_signal_handlers :
    (∀ s : ProxyState, (connect s).sigHandlerSets = s.sigHandlerSets + 1) ∧
    (∀ k, k ≤ MAX_RECONNECT_ATTEMPTS → (failN k).sigHandlerSets = k + 1) ∧
    (∀ (s : ProxyState) (cur : Nat), s.exited = none → s.currentWs = some cur →
      (readyStateOf s cur = WS_OPEN ∨ readyStateOf s cur = WS_CONNECTING) →
      (step .signal s).shutdownCalls
        = s.shutdownCalls + min s.sigHandlerSets 2) ∧
    (∀ (s : ProxyState) (cur : Nat), s.exited = none → s.currentWs = some cur →
      readyStateOf s cur ≠ WS_OPEN → readyStateOf s cur ≠ WS_CONNECTING →
      (step .signal s).shutdownCalls
        = s.shutdownCalls + min s.sigHandlerSets 1) := by
  refine ⟨fun s => rfl, by decide, ?_, ?_⟩
  · intro s cur hex hcw hrs
    rw [step_signal s hex]
    exact runSignalHandlers_calls_live s.sigHandlerSets s cur hex hcw hrs
  · intro s cur hex hcw h1 h2
    rw [step_signal s hex]
    exact runSignalHandlers_calls_dead s.sigHandlerSets s cur hex hcw h1 h2

/-- Witness for C10_amended_signal_handlers: the initial connect call;
two reconnect attempts; a signal while socket 2 is open; and a signal
while socket 0 is closed and no reconnect has happened yet. -/
theorem C10_witness :
    (connect initialState).sigHandlerSets = initialState.sigHandlerSets + 1 ∧
    (failN 2).sigHandlerSets = 2 + 1 ∧
    (step .signal (run [.wsOpen 0] startState)).shutdownCalls
      = (run [.wsOpen 0] startState).shutdownCalls
          + min (run [.wsOpen 0] startState).sigHandlerSets 2 ∧
    (step .signal (run [.wsClose 0 1006] startState)).shutdownCalls
      = (run [.wsClose 0 1006] startState).shutdownCalls
          + min (run [.wsClose 0 1006] startState).sigHandlerSets 1 :=
  ⟨C10_amended_signal_handlers.1 initialState,
   C10_amended_signal_handlers.2.1 2 (by decide),
   C10_amended_signal_handlers.2.2.1 (run [.wsOpen 0] startState) 0
     (by decide) (by decide) (Or.inl (by decide)),
   C10_amended_signal_handlers.2.2.2 (run [.wsClose 0 1006] startState) 0
     (by decide) (by decide) (by decide) (by decide)⟩

end Proxy
